import Mathlib

/-!
Verification development for the hackathon0-bronze resilience layer
(`retry_handler.py`) and approval lifecycle (`hitl_watcher.py`).

The Python code is shallowly embedded: pure functions become Lean
functions, stateful objects become explicit state passing, wall-clock
time (`time.time()`, `datetime.now()`) becomes an explicit `now : ℚ`
argument (POSIX seconds), and fallible Python code returns
`Option`/`Except`.  Audit logging (`AuditLogger`) is a write-only sink
the core never reads, so logging calls are not modeled.
-/

/- ===================================================================
   Error model: Python exception values relevant to retry_handler.py.
   An exception is a (type, message) pair; `pyAncestors` records the
   Python class hierarchy restricted to the types that appear in
   EXCEPTION_CATEGORY_MAP, so `isInstanceOf` models `isinstance`.
   =================================================================== -/

inductive PyType where
  | PermissionError
  | MemoryError
  | SystemError
  | ConnectionError
  | TimeoutError
  | ConnectionResetError
  | BrokenPipeError
  | OSError
  | ValueError
  | TypeError
  | KeyError
  | AttributeError
  | Exception
deriving DecidableEq

/-- Python base-class chain of each modeled exception type (the type
itself first, ending at `Exception`). -/
def pyAncestors : PyType → List PyType
  | .PermissionError => [.PermissionError, .OSError, .Exception]
  | .MemoryError => [.MemoryError, .Exception]
  | .SystemError => [.SystemError, .Exception]
  | .ConnectionError => [.ConnectionError, .OSError, .Exception]
  | .TimeoutError => [.TimeoutError, .OSError, .Exception]
  | .ConnectionResetError => [.ConnectionResetError, .ConnectionError, .OSError, .Exception]
  | .BrokenPipeError => [.BrokenPipeError, .ConnectionError, .OSError, .Exception]
  | .OSError => [.OSError, .Exception]
  | .ValueError => [.ValueError, .Exception]
  | .TypeError => [.TypeError, .Exception]
  | .KeyError => [.KeyError, .Exception]
  | .AttributeError => [.AttributeError, .Exception]
  | .Exception => [.Exception]

/-- Models Python `isinstance(error, exc_type)`. -/
def isInstanceOf (t c : PyType) : Bool := (pyAncestors t).contains c

/-- A Python exception value: its class and its `str(error)` message. -/
structure PyError where
  ty : PyType
  msg : String
deriving DecidableEq

/- ===================================================================
   audit_logger.ErrorCategory: four string constants.
   =================================================================== -/

namespace ErrorCategory

def TRANSIENT : String := "TRANSIENT"

def AUTH : String := "AUTH"

def LOGIC : String := "LOGIC"

def SYSTEM : String := "SYSTEM"

end ErrorCategory

/- ===================================================================
   retry_handler.py: error classification.
   =================================================================== -/

/-- retry_handler.EXCEPTION_CATEGORY_MAP — ordered, specific types first. -/
def EXCEPTION_CATEGORY_MAP : List (PyType × String) :=
  [(.PermissionError, ErrorCategory.AUTH),
   (.MemoryError, ErrorCategory.SYSTEM),
   (.SystemError, ErrorCategory.SYSTEM),
   (.ConnectionError, ErrorCategory.TRANSIENT),
   (.TimeoutError, ErrorCategory.TRANSIENT),
   (.ConnectionResetError, ErrorCategory.TRANSIENT),
   (.BrokenPipeError, ErrorCategory.TRANSIENT),
   (.OSError, ErrorCategory.TRANSIENT),
   (.ValueError, ErrorCategory.LOGIC),
   (.TypeError, ErrorCategory.LOGIC),
   (.KeyError, ErrorCategory.LOGIC),
   (.AttributeError, ErrorCategory.LOGIC)]

/-- Auxiliary: does `pat` occur as a contiguous sublist of `l`? -/
def listHasInfix (pat : List Char) : List Char → Bool
  | [] => pat.isEmpty
  | c :: cs => pat.isPrefixOf (c :: cs) || listHasInfix pat cs

/-- Python `pattern in msg` on strings (substring containment). -/
def containsSub (s pat : String) : Bool := listHasInfix pat.data s.data

/-- retry_handler.ERROR_MESSAGE_PATTERNS — a dict iterated in insertion
order (TRANSIENT, AUTH, LOGIC, SYSTEM). -/
def ERROR_MESSAGE_PATTERNS : List (String × List String) :=
  [(ErrorCategory.TRANSIENT,
    ["timeout", "timed out", "connection refused", "connection reset",
     "rate limit", "429", "503", "502", "504", "temporary",
     "service unavailable", "try again", "ECONNREFUSED", "ETIMEDOUT"]),
   (ErrorCategory.AUTH,
    ["401", "403", "unauthorized", "forbidden", "token expired",
     "invalid credentials", "authentication failed", "access denied",
     "permission denied", "invalid_grant"]),
   (ErrorCategory.LOGIC,
    ["validation", "invalid", "missing required", "bad request", "400",
     "not found", "404", "already exists", "duplicate", "constraint"]),
   (ErrorCategory.SYSTEM,
    ["disk full", "no space", "out of memory", "segfault",
     "killed", "oom", "ENOMEM", "ENOSPC"])]

/-- retry_handler.classify_error: (1) exact exception type match against
the ordered table, (2) case-insensitive message pattern match, (3)
default LOGIC. -/
def classify_error (e : PyError) : String :=
  match EXCEPTION_CATEGORY_MAP.find? (fun p => isInstanceOf e.ty p.1) with
  | some p => p.2
  | none =>
    let msg := e.msg.toLower
    match ERROR_MESSAGE_PATTERNS.find?
        (fun cp => cp.2.any (fun pat => containsSub msg pat.toLower)) with
    | some cp => cp.1
    | none => ErrorCategory.LOGIC

/-- retry_handler.is_retryable: only transient errors are retried. -/
def is_retryable (e : PyError) : Bool :=
  classify_error e == ErrorCategory.TRANSIENT

/- ===================================================================
   retry_handler.retry — the retry decorator's wrapper loop.

   A wrapped function is embedded as `func : Nat → Except PyError α`
   giving the outcome of each attempt (attempts are numbered from 1 as
   in `range(1, max_retries + 1)`).  `jitF attempt` is the value
   sampled by `random.uniform(0, delay * jitter)` on that attempt.
   `catches` models the `retryable_exceptions` tuple (its default
   `(Exception,)` catches every modeled error).  The trace records the
   wrapper's result, how many times `func` was invoked, and every
   backoff sleep performed.
   =================================================================== -/

inductive ROutcome (α : Type) where
  | ok (v : α)
  | raised (e : PyError)
  | noneRet
deriving DecidableEq

structure RetryTrace (α : Type) where
  outcome : ROutcome α
  invocations : Nat
  sleeps : List ℚ
deriving DecidableEq

/-- One pass of the wrapper's `for attempt in range(1, max_retries+1)`
loop, with `remaining` = number of attempts left after this one (so
`attempt < max_retries` iff `remaining` is a successor). -/
def retryGo (jitF : Nat → ℚ) (category : Option String) (catches : PyError → Bool)
    (backoff_base backoff_max jitter : ℚ) (func : Nat → Except PyError α) :
    Nat → Nat → Nat → List ℚ → RetryTrace α
  | remaining, attempt, inv, sleeps =>
    match func attempt with
    | .ok v => ⟨.ok v, inv + 1, sleeps⟩
    | .error e =>
      if !(catches e) then
        -- exception not in `retryable_exceptions`: propagates uncaught
        ⟨.raised e, inv + 1, sleeps⟩
      else
        let err_category := category.getD (classify_error e)
        if err_category != ErrorCategory.TRANSIENT && category == none then
          -- non-retryable: re-raise the same error immediately
          ⟨.raised e, inv + 1, sleeps⟩
        else
          match remaining with
          | r + 1 =>
            let delay := min (backoff_base * 2 ^ (attempt - 1)) backoff_max
            let delay := if jitter > 0 then delay + jitF attempt else delay
            retryGo jitF category catches backoff_base backoff_max jitter func
              r (attempt + 1) (inv + 1) (sleeps ++ [delay])
          | 0 =>
            -- all retries exhausted: re-raise the last error
            ⟨.raised e, inv + 1, sleeps⟩

/-- retry_handler.retry: the wrapper produced by the decorator.  When
`max_retries = 0` the loop body never runs and the wrapper returns
`None`. -/
def retry (max_retries : Nat) (backoff_base backoff_max jitter : ℚ)
    (jitF : Nat → ℚ) (category : Option String) (catches : PyError → Bool)
    (func : Nat → Except PyError α) : RetryTrace α :=
  if max_retries = 0 then ⟨.noneRet, 0, []⟩
  else retryGo jitF category catches backoff_base backoff_max jitter func
    (max_retries - 1) 1 0 []

/- ===================================================================
   retry_handler.CircuitBreaker.
   =================================================================== -/

inductive CBState where
  | CLOSED
  | OPEN
  | HALF_OPEN
deriving DecidableEq

structure CircuitBreaker where
  name : String
  failure_threshold : Nat
  recovery_timeout : ℚ
  state : CBState
  failure_count : Nat
  last_failure_time : ℚ
  success_count : Nat
deriving DecidableEq

/-- CircuitBreaker.__init__ (defaults failure_threshold=5,
recovery_timeout=60 are passed explicitly by callers of this model). -/
def CircuitBreaker.init (name : String) (failure_threshold : Nat)
    (recovery_timeout : ℚ) : CircuitBreaker :=
  ⟨name, failure_threshold, recovery_timeout, .CLOSED, 0, 0, 0⟩

/-- CircuitBreaker.can_execute — returns the answer and the breaker
after the check's side effect (OPEN → HALF_OPEN once the recovery
timeout has elapsed). -/
def CircuitBreaker.can_execute (cb : CircuitBreaker) (now : ℚ) :
    Bool × CircuitBreaker :=
  match cb.state with
  | .CLOSED => (true, cb)
  | .OPEN =>
    if now - cb.last_failure_time ≥ cb.recovery_timeout then
      (true, { cb with state := .HALF_OPEN })
    else
      (false, cb)
  | .HALF_OPEN => (true, cb)

/-- CircuitBreaker.record_success. -/
def CircuitBreaker.record_success (cb : CircuitBreaker) : CircuitBreaker :=
  let cb :=
    if cb.state = .HALF_OPEN then
      { cb with state := .CLOSED, failure_count := 0 }
    else cb
  { cb with success_count := cb.success_count + 1 }

/-- CircuitBreaker.record_failure. -/
def CircuitBreaker.record_failure (cb : CircuitBreaker) (now : ℚ) : CircuitBreaker :=
  let cb := { cb with failure_count := cb.failure_count + 1, last_failure_time := now }
  if cb.state = .HALF_OPEN then { cb with state := .OPEN }
  else if cb.failure_count ≥ cb.failure_threshold then { cb with state := .OPEN }
  else cb

/- ===================================================================
   Generic association-list "directory": file name to record.  Writing
   a path (`Path.write_text`) replaces the record when the name exists
   and creates it otherwise, keeping directory order.
   =================================================================== -/

/-- Write `v` under key `k`: replace the first entry with that key, or
append a new entry. -/
def setAssoc {β : Type} (m : List (String × β)) (k : String) (v : β) :
    List (String × β) :=
  match m with
  | [] => [(k, v)]
  | (k0, v0) :: t =>
    if k0 == k then (k0, v) :: t else (k0, v0) :: setAssoc t k v

/-- Delete every entry named `k` (file names are unique, so this is
`Path.unlink`). -/
def delAssoc {β : Type} (m : List (String × β)) (k : String) :
    List (String × β) :=
  m.filter (fun p => !(p.1 == k))

/- ===================================================================
   retry_handler.TaskQueue — file-based queue with dead-letter storage.
   A queued task is the JSON document written by `enqueue`; the
   dead-letter fields are absent (`none`) until `send_to_dead_letter`
   adds them.  `payload` is opaque and kept as a string.
   =================================================================== -/

structure QueuedTask where
  id : String
  type : String
  payload : String
  reason : String
  enqueued_at : ℚ
  retry_count : Nat
  max_retries : Nat
  status : String
  dead_letter_reason : Option String
  dead_letter_at : Option ℚ
deriving DecidableEq

/-- The two directories of TaskQueue, as name-keyed record lists. -/
structure TaskQueue where
  queue : List (String × QueuedTask)
  dead_letter : List (String × QueuedTask)
deriving DecidableEq

/-- Python `int(x)` on a float: truncation toward zero. -/
def pyInt (q : ℚ) : Int := q.num / (q.den : Int)

/-- The file name `f"q_&#123;task_id&#125;_&#123;int(time.time())&#125;.json"`
(the timestamp is truncated to whole seconds). -/
def queueFileName (task_id : String) (now : ℚ) : String :=
  "q_" ++ task_id ++ "_" ++ toString (pyInt now) ++ ".json"

/-- TaskQueue.enqueue: build the task record and `write_text` it under
the timestamped file name. -/
def TaskQueue.enqueue (q : TaskQueue) (now : ℚ)
    (task_id task_type payload reason : String) (max_retries : Nat) : TaskQueue :=
  let task : QueuedTask :=
    ⟨task_id, task_type, payload, reason, now, 0, max_retries, "queued", none, none⟩
  { q with queue := setAssoc q.queue (queueFileName task_id now) task }

/-- Stable insertion by file name, modeling Python's `sorted`. -/
def insertByName (x : String × QueuedTask) :
    List (String × QueuedTask) → List (String × QueuedTask)
  | [] => [x]
  | y :: ys => if x.1 < y.1 then x :: y :: ys else y :: insertByName x ys

/-- TaskQueue.dequeue_all: all queue files sorted by name.  (Every file
in the modeled queue directory was created by `enqueue`/`process_queue`,
so the `q_*.json` glob is the identity here.) -/
def TaskQueue.dequeue_all (q : TaskQueue) : List (String × QueuedTask) :=
  q.queue.foldr insertByName []

/-- TaskQueue.mark_completed: unlink the processed file. -/
def TaskQueue.mark_completed (q : TaskQueue) (name : String) : TaskQueue :=
  { q with queue := delAssoc q.queue name }

/-- TaskQueue.send_to_dead_letter: re-read the task from its file (the
persisted record, not the in-memory incremented copy), attach the
failure reason, timestamp and dead_letter status, write it under the
same name in dead-letter storage, and unlink the queue file. -/
def TaskQueue.send_to_dead_letter (q : TaskQueue) (now : ℚ)
    (name error_msg : String) : TaskQueue :=
  match List.lookup name q.queue with
  | none => q
  | some t0 =>
    let t := { t0 with
      dead_letter_reason := some error_msg,
      dead_letter_at := some now,
      status := "dead_letter" }
    { queue := delAssoc q.queue name,
      dead_letter := setAssoc q.dead_letter name t }

/-- Counters returned by process_queue. -/
structure PQResults where
  processed : Nat
  failed : Nat
  dead_letter : Nat
deriving DecidableEq

/-- One iteration of the process_queue loop over the dequeued snapshot.
The accumulator carries the queue state, the counters, and the list of
tasks actually passed to the processor (each with its incremented
retry_count, as in the source). -/
def pqStep (now : ℚ) (proc : QueuedTask → Except String Unit)
    (acc : TaskQueue × PQResults × List QueuedTask)
    (entry : String × QueuedTask) : TaskQueue × PQResults × List QueuedTask :=
  let t := { entry.2 with retry_count := entry.2.retry_count + 1 }
  match proc t with
  | .ok _ =>
    (acc.1.mark_completed entry.1,
     { acc.2.1 with processed := acc.2.1.processed + 1 },
     acc.2.2 ++ [t])
  | .error msg =>
    if t.retry_count ≥ t.max_retries then
      (acc.1.send_to_dead_letter now entry.1 msg,
       { acc.2.1 with dead_letter := acc.2.1.dead_letter + 1 },
       acc.2.2 ++ [t])
    else
      ({ acc.1 with queue := setAssoc acc.1.queue entry.1 t },
       { acc.2.1 with failed := acc.2.1.failed + 1 },
       acc.2.2 ++ [t])

/-- TaskQueue.process_queue: dequeue a snapshot, then for each task
increment retry_count, invoke the processor, and on failure either
dead-letter (retry_count ≥ max_retries) or persist the incremented
count. -/
def TaskQueue.process_queue (q : TaskQueue) (now : ℚ)
    (proc : QueuedTask → Except String Unit) :
    TaskQueue × PQResults × List QueuedTask :=
  (q.dequeue_all).foldl (pqStep now proc) (q, ⟨0, 0, 0⟩, [])

/- ===================================================================
   retry_handler.ErrorHandler.safe_execute.
   The circuit registry `self.circuits` is a name-keyed list.  The
   result records the returned tri-state, the updated registry, how
   many times `fn` ran, every error a fallback was invoked with, and
   the backoff sleeps.
   =================================================================== -/

structure SafeExecOut (α : Type) where
  succeeded : Bool
  result : Option α
  error : Option PyError
  circuits : List (String × CircuitBreaker)
  fnCalls : Nat
  fallbackCalls : List PyError
  sleeps : List ℚ

/-- ErrorHandler.get_circuit: fetch the named breaker, creating one
with the default thresholds (5 failures, 60 s recovery) on first use. -/
def ErrorHandler.get_circuit (cs : List (String × CircuitBreaker))
    (name : String) : CircuitBreaker × List (String × CircuitBreaker) :=
  match List.lookup name cs with
  | some cb => (cb, cs)
  | none =>
    (CircuitBreaker.init name 5 60, cs ++ [(name, CircuitBreaker.init name 5 60)])

/-- The synthetic error `ConnectionError(f"Circuit &#123;circuit_name&#125; open")`. -/
def circuitOpenError (name : String) : PyError :=
  ⟨.ConnectionError, "Circuit " ++ name ++ " open"⟩

/-- The retry loop inside safe_execute (`for attempt in
range(1, max_retries + 1)`), with `remaining` attempts left after the
current one.  Backoff constants 1.0 / 30.0 / 0.5 are hardcoded in the
source; `jitF attempt` is the sampled `random.uniform` value. -/
def safeExecLoop (now : ℚ) (circuit_name : Option String)
    (fn : Nat → Except PyError α) (fallback : Option (PyError → α))
    (jitF : Nat → ℚ) :
    Nat → Nat → List (String × CircuitBreaker) → Nat → List ℚ → SafeExecOut α
  | remaining, attempt, cs, calls, sleeps =>
    match fn attempt with
    | .ok v =>
      let cs :=
        match circuit_name with
        | some name =>
          let gc := ErrorHandler.get_circuit cs name
          setAssoc gc.2 name gc.1.record_success
        | none => cs
      ⟨true, some v, none, cs, calls + 1, [], sleeps⟩
    | .error e =>
      let cs :=
        match circuit_name with
        | some name =>
          let gc := ErrorHandler.get_circuit cs name
          setAssoc gc.2 name (gc.1.record_failure now)
        | none => cs
      let err_category := classify_error e
      if err_category != ErrorCategory.TRANSIENT then
        match fallback with
        | some fb => ⟨false, some (fb e), some e, cs, calls + 1, [e], sleeps⟩
        | none => ⟨false, none, some e, cs, calls + 1, [], sleeps⟩
      else
        match remaining with
        | r + 1 =>
          let delay := min ((1 : ℚ) * 2 ^ (attempt - 1)) 30
          let delay := delay + jitF attempt
          safeExecLoop now circuit_name fn fallback jitF
            r (attempt + 1) cs (calls + 1) (sleeps ++ [delay])
        | 0 =>
          match fallback with
          | some fb => ⟨false, some (fb e), some e, cs, calls + 1, [e], sleeps⟩
          | none => ⟨false, none, some e, cs, calls + 1, [], sleeps⟩

/-- ErrorHandler.safe_execute: check the named circuit first (skipping
the call and invoking the fallback with the synthetic circuit-open
error when it refuses), then run the retry loop.  With
`max_retries = 0` the loop never runs and `(False, None, None)` is
returned. -/
def ErrorHandler.safe_execute (now : ℚ)
    (cs : List (String × CircuitBreaker)) (fn : Nat → Except PyError α)
    (fallback : Option (PyError → α)) (max_retries : Nat)
    (circuit_name : Option String) (jitF : Nat → ℚ) : SafeExecOut α :=
  match circuit_name with
  | some name =>
    let gc := ErrorHandler.get_circuit cs name
    let ce := gc.1.can_execute now
    let cs2 := setAssoc gc.2 name ce.2
    if ce.1 then
      if max_retries = 0 then ⟨false, none, none, cs2, 0, [], []⟩
      else safeExecLoop now circuit_name fn fallback jitF
        (max_retries - 1) 1 cs2 0 []
    else
      let synth := circuitOpenError name
      match fallback with
      | some fb => ⟨false, some (fb synth), none, cs2, 0, [synth], []⟩
      | none => ⟨false, none, some synth, cs2, 0, [], []⟩
  | none =>
    if max_retries = 0 then ⟨false, none, none, cs, 0, [], []⟩
    else safeExecLoop now circuit_name fn fallback jitF
      (max_retries - 1) 1 cs 0 []

/- ===================================================================
   hitl_watcher.py — data model.

   A YAML frontmatter value is modeled by `YVal`: strings, numbers,
   datetimes (as naive POSIX-second timestamps — YAML decodes ISO
   timestamps into datetime objects), and null.  List-valued fields
   (`flags`) are advisory only: they are read by the log-only reasoning
   step and never by a lifecycle decision, so they are not modeled.
   =================================================================== -/

inductive YVal where
  | str (s : String)
  | num (q : ℚ)
  | dt (t : ℚ)
  | vnull
deriving DecidableEq

/-- Python `str(value)` as used by f-string interpolation of metadata. -/
def yvalToStr : YVal → String
  | .str s => s
  | .num q => toString q
  | .dt t => toString t
  | .vnull => "None"

/- ===================================================================
   datetime.fromisoformat, restricted to the canonical
   `YYYY-MM-DD[*HH[:MM[:SS[.ffffff]]]]` shapes the vault writes
   (naive times; timezone offsets are out of scope).  Calendar-day
   validation is simplified to 1..31.  Returns POSIX seconds.
   =================================================================== -/

def digitVal (c : Char) : Option Nat :=
  if c.isDigit then some (c.toNat - 48) else none

def twoDigits (c1 c2 : Char) : Option Nat := do
  let d1 ← digitVal c1
  let d2 ← digitVal c2
  pure (d1 * 10 + d2)

/-- Days from 1970-01-01 to year/month/day (Gregorian, proleptic). -/
def daysFromCivil (y m d : Int) : Int :=
  let y := if m ≤ 2 then y - 1 else y
  let era : Int := (if 0 ≤ y then y else y - 399) / 400
  let yoe := y - era * 400
  let doy := (153 * (if m > 2 then m - 3 else m + 9) + 2) / 5 + d - 1
  let doe := yoe * 365 + yoe / 4 - yoe / 100 + doy
  era * 146097 + doe - 719468

/-- Fractional seconds: 1 to 6 digits after the decimal point. -/
def parseFracDigits (cs : List Char) : Option ℚ :=
  if cs.length = 0 ∨ 6 < cs.length then none
  else
    (cs.foldl (fun acc c => do
        let a ← acc
        let d ← digitVal c
        pure (a * 10 + d)) (some (0 : ℚ))).map
      (fun v => v / (10 : ℚ) ^ cs.length)

/-- The `HH[:MM[:SS[.ffffff]]]` tail, in seconds within the day. -/
def parseTimePart : List Char → Option ℚ
  | [h1, h2] => do
    let h ← twoDigits h1 h2
    if h ≤ 23 then pure ((h : ℚ) * 3600) else none
  | [h1, h2, ':', m1, m2] => do
    let h ← twoDigits h1 h2
    let m ← twoDigits m1 m2
    if h ≤ 23 ∧ m ≤ 59 then pure ((h : ℚ) * 3600 + (m : ℚ) * 60) else none
  | h1 :: h2 :: ':' :: m1 :: m2 :: ':' :: s1 :: s2 :: rest => do
    let h ← twoDigits h1 h2
    let m ← twoDigits m1 m2
    let s ← twoDigits s1 s2
    if h ≤ 23 ∧ m ≤ 59 ∧ s ≤ 59 then
      match rest with
      | [] => pure ((h : ℚ) * 3600 + (m : ℚ) * 60 + (s : ℚ))
      | '.' :: fr => do
        let f ← parseFracDigits fr
        pure ((h : ℚ) * 3600 + (m : ℚ) * 60 + (s : ℚ) + f)
      | _ => none
    else none
  | _ => none

/-- datetime.fromisoformat (restricted as described above); `none`
models the ValueError branch of the callers' try/except. -/
def fromisoformat (s : String) : Option ℚ :=
  match s.data with
  | [y1, y2, y3, y4, '-', m1, m2, '-', d1, d2] => do
    let y ← twoDigits y1 y2
    let y' ← twoDigits y3 y4
    let m ← twoDigits m1 m2
    let d ← twoDigits d1 d2
    if 1 ≤ m ∧ m ≤ 12 ∧ 1 ≤ d ∧ d ≤ 31 then
      pure ((daysFromCivil (y * 100 + y') m d : ℚ) * 86400)
    else none
  | y1 :: y2 :: y3 :: y4 :: '-' :: m1 :: m2 :: '-' :: d1 :: d2 :: _ :: timecs => do
    let y ← twoDigits y1 y2
    let y' ← twoDigits y3 y4
    let m ← twoDigits m1 m2
    let d ← twoDigits d1 d2
    let tp ← parseTimePart timecs
    if 1 ≤ m ∧ m ≤ 12 ∧ 1 ≤ d ∧ d ≤ 31 then
      pure ((daysFromCivil (y * 100 + y') m d : ℚ) * 86400 + tp)
    else none
  | _ => none

/- ===================================================================
   hitl_watcher.HITLAction — a parsed action file: YAML frontmatter
   metadata, the free-form body, and the file name stem (fallback id).
   Records are stored parsed; the YAML round-trip performed by
   `_write` persists exactly this data.
   =================================================================== -/

structure HITLAction where
  meta : List (String × YVal)
  body : String
  stem : String
deriving DecidableEq

/-- Python `s.startswith(pre)`. -/
def strStartsWith (s pre : String) : Bool := pre.data.isPrefixOf s.data

/-- Python `s.strip()`: drop leading and trailing whitespace. -/
def pyStrip (s : String) : String :=
  String.mk
    (((s.data.dropWhile Char.isWhitespace).reverse.dropWhile
        Char.isWhitespace).reverse)

/-- Replace every occurrence of a (non-empty) pattern, left to right,
non-overlapping — Python `s.replace(pat, rep)`. -/
def listReplace (pat rep : List Char) : List Char → List Char
  | [] => []
  | c :: cs =>
    if pat.isPrefixOf (c :: cs) ∧ pat ≠ [] then
      rep ++ listReplace pat rep (cs.drop (pat.length - 1))
    else c :: listReplace pat rep cs
termination_by l => l.length
decreasing_by
  · simp only [List.length_cons, List.length_drop]
    omega
  · simp only [List.length_cons]
    omega

/-- Python `s.replace(pat, rep)` on strings. -/
def pyReplace (s pat rep : String) : String :=
  String.mk (listReplace pat.data rep.data s.data)

/-- Python `raw.split("---", 2)` applied after `startswith("---")`:
find the first occurrence of the separator, returning the text before
it and the text after it. -/
def splitOnSep : List Char → Option (List Char × List Char)
  | [] => none
  | c :: cs =>
    if ['-', '-', '-'].isPrefixOf (c :: cs) then some ([], cs.drop 2)
    else
      match splitOnSep cs with
      | some p => some (c :: p.1, p.2)
      | none => none

/-- `raw.split("---", 2)`: at most two splits, left to right. -/
def pySplit2 (raw : String) : List String :=
  match splitOnSep raw.data with
  | none => [raw]
  | some p =>
    match splitOnSep p.2 with
    | none => [String.mk p.1, String.mk p.2]
    | some p2 => [String.mk p.1, String.mk p2.1, String.mk p2.2]

/-- HITLAction._parse.  `yload` models `yaml.safe_load` on the
frontmatter slice: `none` is the YAMLError branch, and the `or &#123;&#125;`
coercion of an empty document is folded into a `some []` result. -/
def hitlParse (yload : String → Option (List (String × YVal)))
    (stem raw : String) : HITLAction :=
  if strStartsWith raw "---" then
    match pySplit2 raw with
    | [_, fm, rest] => { meta := (yload fm).getD [], body := pyStrip rest, stem }
    | _ => { meta := [], body := raw, stem }
  else { meta := [], body := raw, stem }

/-- HITLAction.id — `meta.get("id", stem)`. -/
def HITLAction.id (a : HITLAction) : YVal :=
  (List.lookup "id" a.meta).getD (.str a.stem)

/-- HITLAction.action — `meta.get("action", "general")`. -/
def HITLAction.action (a : HITLAction) : YVal :=
  (List.lookup "action" a.meta).getD (.str "general")

/-- HITLAction.status — `meta.get("status", "pending")`. -/
def HITLAction.status (a : HITLAction) : YVal :=
  (List.lookup "status" a.meta).getD (.str "pending")

/-- HITLAction.priority — `meta.get("priority", "normal")`. -/
def HITLAction.priority (a : HITLAction) : YVal :=
  (List.lookup "priority" a.meta).getD (.str "normal")

/-- HITLAction.created: a datetime value is used as is; a string is
parsed with fromisoformat (ValueError gives None); anything else is
None. -/
def HITLAction.created (a : HITLAction) : Option ℚ :=
  match List.lookup "created" a.meta with
  | some (.dt t) => some t
  | some (.str s) => fromisoformat s
  | _ => none

/-- HITLAction.expires — same decoding as `created`. -/
def HITLAction.expires (a : HITLAction) : Option ℚ :=
  match List.lookup "expires" a.meta with
  | some (.dt t) => some t
  | some (.str s) => fromisoformat s
  | _ => none

def EXPIRY_HOURS : ℚ := 24

/-- HITLAction.is_expired: strictly after `expires` when set, else
strictly after `created + 24h` when set, else False.  (Timestamps are
naive, matching the tzinfo-stripping in the source.) -/
def HITLAction.is_expired (a : HITLAction) (now : ℚ) : Bool :=
  match a.expires with
  | some e => decide (e < now)
  | none =>
    match a.created with
    | some c => decide (c + EXPIRY_HOURS * 3600 < now)
    | none => false

/-- Strip thousands separators and currency markers, as in
HITLAction.amount. -/
def cleanAmountStr (s : String) : String :=
  pyStrip (pyReplace (pyReplace (pyReplace s "," "") "$" "") "Rs." "")

def natOfDigitList (ds : List Nat) : ℚ :=
  ds.foldl (fun acc d => acc * 10 + (d : ℚ)) 0

/-- Leading decimal digits of a char list, with the rest. -/
def takeDigits : List Char → List Nat × List Char
  | [] => ([], [])
  | c :: cs =>
    match digitVal c with
    | some d =>
      let r := takeDigits cs
      (d :: r.1, r.2)
    | none => ([], c :: cs)

/-- Python `float(s)` for plain decimal literals (the only shapes the
vault produces); exponent and special forms are out of scope. -/
def parseFloat (s : String) : Option ℚ :=
  let core : List Char → Option ℚ := fun cs =>
    let ip := takeDigits cs
    match ip.2 with
    | [] => if ip.1.isEmpty then none else some (natOfDigitList ip.1)
    | '.' :: rest =>
      let fp := takeDigits rest
      if fp.2.isEmpty ∧ ¬(ip.1.isEmpty ∧ fp.1.isEmpty) then
        some (natOfDigitList ip.1 + natOfDigitList fp.1 / (10 : ℚ) ^ fp.1.length)
      else none
    | _ => none
  match s.data with
  | '-' :: cs => (core cs).map Neg.neg
  | '+' :: cs => core cs
  | cs => core cs

/-- HITLAction.amount: clean and float-parse the value; ValueError (and
a missing or null value) gives None.  A numeric YAML value round-trips
through `float(str(val))` unchanged; `float(str(datetime))` raises. -/
def HITLAction.amount (a : HITLAction) : Option ℚ :=
  match List.lookup "amount" a.meta with
  | some (.num q) => some q
  | some (.str s) => parseFloat (cleanAmountStr s)
  | _ => none

/-- HITLAction.update_status: rewrite only the `status` header field
(and persist — the stored record is this value). -/
def HITLAction.update_status (a : HITLAction) (new_status : String) : HITLAction :=
  { a with meta := setAssoc a.meta "status" (.str new_status) }

/-- HITLAction.add_execution_log: set `executed_at` to the current
time's isoformat (modeled by its timestamp value) and
`execution_result` to the given string, and persist. -/
def HITLAction.add_execution_log (a : HITLAction) (now : ℚ) (result : String) :
    HITLAction :=
  { a with meta :=
      (setAssoc (setAssoc a.meta "executed_at" (.dt now))
        "execution_result" (.str result)) }

/- ===================================================================
   hitl_watcher.ActionExecutor — type dispatch.  Handlers simulate the
   external side effect and return a structured result; formatting a
   missing payment amount (`None`) with `:,.2f` raises TypeError, which
   the scan's per-file try/except catches, so `execute` is `Except`.
   =================================================================== -/

structure ExecResult where
  status : String
  action : String
  message : String
deriving DecidableEq

/-- `meta.get(k, default)` rendered by an f-string. -/
def metaStr (a : HITLAction) (k dflt : String) : String :=
  match List.lookup k a.meta with
  | some v => yvalToStr v
  | none => dflt

/-- ActionExecutor.execute: dispatch on `action.action` with the
general handler as default. -/
def ActionExecutor.execute (a : HITLAction) : Except Unit ExecResult :=
  if a.action == .str "email" then
    .ok ⟨"executed", "email",
      "Email to " ++ metaStr a "to" "unknown" ++ " sent successfully (simulated)"⟩
  else if a.action == .str "payment" then
    match a.amount with
    | none => .error ()
    | some q =>
      .ok ⟨"executed", "payment",
        "Payment of " ++ metaStr a "currency" "USD" ++ " " ++ toString q ++
          " to " ++ metaStr a "to" "unknown" ++ " processed (simulated)"⟩
  else if a.action == .str "linkedin_post" then
    .ok ⟨"executed", "linkedin_post", "LinkedIn post published (simulated)"⟩
  else if a.action == .str "whatsapp" then
    .ok ⟨"executed", "whatsapp",
      "WhatsApp message to " ++ metaStr a "to" "unknown" ++ " sent (simulated)"⟩
  else
    .ok ⟨"executed", "general",
      "Task " ++ metaStr a "title" (yvalToStr a.id) ++ " completed (simulated)"⟩

/-- Models `json.dumps(result)` — the serialized execution outcome
stored in the `execution_result` header field. -/
def dumpResult (r : ExecResult) : String :=
  "status: " ++ r.status ++ ", action: " ++ r.action ++ ", message: " ++ r.message

/- ===================================================================
   hitl_watcher.HITLWatcher — the lifecycle scan.

   Storage containers hold (file name, parsed record) pairs in
   directory order.  The persisted watcher state is the executed-ids
   list (`last_scan` is write-only bookkeeping).  The per-cycle results
   carry the cycle stats plus the list of ids actually dispatched to
   ActionExecutor.execute, which the idempotence claims are about.
   =================================================================== -/

structure WatcherState where
  executed_ids : List YVal
deriving DecidableEq

structure Storage where
  pending : List (String × HITLAction)
  approved : List (String × HITLAction)
  rejected : List (String × HITLAction)
  expired : List (String × HITLAction)
  done : List (String × HITLAction)
deriving DecidableEq

/-- `f.suffix == ".md"`. -/
def isMd (n : String) : Bool := ".md".data.reverse.isPrefixOf n.data.reverse

/-- Accumulator of `_expire_stale`: records kept in Pending, records
moved to Expired (already rewritten to status expired), and the count. -/
structure ESRes where
  keep : List (String × HITLAction)
  movedExp : List (String × HITLAction)
  count : Nat
deriving DecidableEq

/-- One Pending file in `_expire_stale`: skip non-.md files; an expired
record has its status rewritten to "expired" and is moved to /Expired;
everything else stays. -/
def esStep (now : ℚ) (acc : ESRes) (f : String × HITLAction) : ESRes :=
  if !(isMd f.1) then { acc with keep := acc.keep ++ [f] }
  else if f.2.is_expired now then
    { acc with
      movedExp := acc.movedExp ++ [(f.1, f.2.update_status "expired")],
      count := acc.count + 1 }
  else { acc with keep := acc.keep ++ [f] }

/-- HITLWatcher._expire_stale over the Pending directory. -/
def expireStale (now : ℚ) (sto : Storage) : ESRes :=
  sto.pending.foldl (esStep now) ⟨[], [], 0⟩

/-- Accumulator of `_process_approved`: the growing executed-ids list,
records kept in Approved, records moved to Done, counters, and the ids
dispatched to ActionExecutor.execute. -/
structure PARes where
  exec_ids : List YVal
  keep : List (String × HITLAction)
  moved : List (String × HITLAction)
  executed : Nat
  errors : Nat
  dispatched : List YVal
deriving DecidableEq

/-- One Approved file in `_process_approved`: skip non-.md files and
ids already in the executed-ids list; otherwise run the (log-only)
reasoning step, dispatch to ActionExecutor.execute, rewrite the record
to executed with the execution log, move it to /Done and append the id
to executed_ids.  If the executor raises, the per-file except leaves
the record in place. -/
def paStep (now : ℚ) (acc : PARes) (f : String × HITLAction) : PARes :=
  if !(isMd f.1) then { acc with keep := acc.keep ++ [f] }
  else if f.2.id ∈ acc.exec_ids then { acc with keep := acc.keep ++ [f] }
  else
    match ActionExecutor.execute f.2 with
    | .error _ =>
      { acc with
        keep := acc.keep ++ [f],
        errors := acc.errors + 1,
        dispatched := acc.dispatched ++ [f.2.id] }
    | .ok r =>
      let a' := (f.2.update_status "executed").add_execution_log now (dumpResult r)
      { acc with
        moved := acc.moved ++ [(f.1, a')],
        exec_ids := acc.exec_ids ++ [f.2.id],
        executed := acc.executed + 1,
        dispatched := acc.dispatched ++ [f.2.id] }

/-- HITLWatcher._process_approved over the Approved directory, starting
from the persisted executed-ids list. -/
def processApproved (now : ℚ) (st : WatcherState) (sto : Storage) : PARes :=
  sto.approved.foldl (paStep now) ⟨st.executed_ids, [], [], 0, 0, []⟩

/-- Result of one scan_and_process cycle. -/
structure ScanRes where
  st : WatcherState
  sto : Storage
  expired : Nat
  executed : Nat
  pending : Nat
  errors : Nat
  dispatched : List YVal
deriving DecidableEq

/-- HITLWatcher.scan_and_process: expire stale Pending records, process
Approved records, count the remaining .md Pending files, persist the
state. -/
def scanAndProcess (now : ℚ) (st : WatcherState) (sto : Storage) : ScanRes :=
  let es := expireStale now sto
  let sto1 : Storage :=
    { sto with pending := es.keep, expired := sto.expired ++ es.movedExp }
  let pa := processApproved now st sto1
  let sto2 : Storage :=
    { sto1 with approved := pa.keep, done := sto1.done ++ pa.moved }
  { st := ⟨pa.exec_ids⟩,
    sto := sto2,
    expired := es.count,
    executed := pa.executed,
    pending := (sto2.pending.filter (fun f => isMd f.1)).length,
    errors := pa.errors,
    dispatched := pa.dispatched }

/-- All records across the five storage containers. -/
def allRecords (sto : Storage) : List (String × HITLAction) :=
  sto.pending ++ sto.approved ++ sto.rejected ++ sto.expired ++ sto.done

/-- The terminal statuses of the lifecycle state graph. -/
def isTerminalStatus (v : YVal) : Bool :=
  v == .str "executed" || v == .str "rejected" || v == .str "expired"

/-- A sample payment record (concrete scenario input). -/
def samplePayment : HITLAction :=
  ⟨[("id", .str "pay_1"), ("action", .str "payment"),
    ("status", .str "approved"), ("to", .str "Vendor Supplies Co."),
    ("amount", .num 750), ("currency", .str "USD")],
   "Pay invoice INV-4821.", "pay_1"⟩

/-- A sample approved email record (concrete scenario input). -/
def approvedEmail : HITLAction :=
  ⟨[("id", .str "a1"), ("action", .str "email"),
    ("status", .str "approved"), ("to", .str "client@example.com"),
    ("subject", .str "Q1 Report")],
   "Hi, the Q1 report is attached.", "a1"⟩

/-- An already-executed record whose expiry has passed (concrete
scenario input for relocation abuse). -/
def executedStale : HITLAction :=
  ⟨[("id", .str "x1"), ("action", .str "email"),
    ("status", .str "executed"), ("expires", .dt 0)],
   "Old executed record.", "x1"⟩

/-- Storage holding one approved record (concrete scenario input). -/
def storageApproved : Storage :=
  ⟨[], [("a1.md", approvedEmail)], [], [], []⟩

/-- Storage holding one relocated executed record in Pending and one
approved record (concrete scenario input). -/
def storageRelocated : Storage :=
  ⟨[("x1.md", executedStale)], [("a1.md", approvedEmail)], [], [], []⟩

/- ===================================================================
   Theorems.
   =================================================================== -/

/-- Looking up after an associative write: the written key reads the
new value, every other key is untouched. -/
theorem lookup_setAssoc {β : Type} (m : List (String × β)) (k k2 : String) (v : β) :
    List.lookup k2 (setAssoc m k v) =
      if k2 = k then some v else List.lookup k2 m := by
  induction m with
  | nil =>
    by_cases hk : k2 = k
    · simp [setAssoc, List.lookup, hk]
    · simp [setAssoc, List.lookup, hk, beq_eq_false_iff_ne.mpr hk]
  | cons p t ih =>
    obtain ⟨k0, v0⟩ := p
    by_cases h0 : k0 = k
    · subst h0
      by_cases hk : k2 = k0
      · simp [setAssoc, List.lookup, hk]
      · simp [setAssoc, List.lookup, hk, beq_eq_false_iff_ne.mpr hk]
    · by_cases hk : k2 = k0
      · subst hk
        simp [setAssoc, List.lookup, h0, beq_eq_false_iff_ne.mpr h0]
      · have h0' : ¬ k = k0 := fun h => h0 h.symm
        by_cases hk2 : k2 = k
        · subst hk2
          simp [setAssoc, List.lookup, beq_eq_false_iff_ne.mpr h0,
            beq_eq_false_iff_ne.mpr hk, ih]
        · simp [setAssoc, List.lookup, hk2, beq_eq_false_iff_ne.mpr h0,
            beq_eq_false_iff_ne.mpr hk, ih]

/-- Claim C6: for every error `e`, `is_retryable e` holds exactly when
`classify_error e` is the Transient category. -/
theorem C6_is_retryable_iff_transient (e : PyError) :
    is_retryable e = true ↔ classify_error e = ErrorCategory.TRANSIENT := by
  simp [is_retryable]

/-- Claim C2: a breaker built with failure_threshold 3 is still Closed
after two failures, Open after exactly three; while the recovery
timeout has not elapsed since the last failure `can_execute` refuses;
once it has elapsed `can_execute` allows the call and flips the state
to HalfOpen; one success there closes the breaker and resets
failure_count to 0. -/
theorem C2_circuit_breaker (rt t1 t2 t3 tq t4 : ℚ)
    (hq : tq - t3 < rt) (h4 : rt ≤ t4 - t3) :
    ((((CircuitBreaker.init "api" 3 rt).record_failure t1).record_failure t2).state
        = .CLOSED)
    ∧ (((((CircuitBreaker.init "api" 3 rt).record_failure t1).record_failure t2).record_failure t3).state
        = .OPEN)
    ∧ ((((((CircuitBreaker.init "api" 3 rt).record_failure t1).record_failure t2).record_failure t3).can_execute tq).1
        = false)
    ∧ ((((((CircuitBreaker.init "api" 3 rt).record_failure t1).record_failure t2).record_failure t3).can_execute t4).1
        = true)
    ∧ ((((((CircuitBreaker.init "api" 3 rt).record_failure t1).record_failure t2).record_failure t3).can_execute t4).2.state
        = .HALF_OPEN)
    ∧ (((((((CircuitBreaker.init "api" 3 rt).record_failure t1).record_failure t2).record_failure t3).can_execute t4).2.record_success).state
        = .CLOSED)
    ∧ (((((((CircuitBreaker.init "api" 3 rt).record_failure t1).record_failure t2).record_failure t3).can_execute t4).2.record_success).failure_count
        = 0) := by
  have h2 : (((CircuitBreaker.init "api" 3 rt).record_failure t1).record_failure t2)
      = ⟨"api", 3, rt, .CLOSED, 2, t2, 0⟩ := rfl
  have h3 : ((((CircuitBreaker.init "api" 3 rt).record_failure t1).record_failure t2).record_failure t3)
      = ⟨"api", 3, rt, .OPEN, 3, t3, 0⟩ := rfl
  have hce : ((⟨"api", 3, rt, .OPEN, 3, t3, 0⟩ : CircuitBreaker).can_execute t4)
      = (true, ⟨"api", 3, rt, .HALF_OPEN, 3, t3, 0⟩) := by
    simp [CircuitBreaker.can_execute, ge_iff_le, h4]
  refine ⟨by rw [h2], by rw [h3], ?_, ?_, ?_, ?_, ?_⟩ <;> rw [h3]
  · simp [CircuitBreaker.can_execute, ge_iff_le, not_le.mpr hq]
  · rw [hce]
  · rw [hce]
  · rw [hce]; simp [CircuitBreaker.record_success]
  · rw [hce]; simp [CircuitBreaker.record_success]

/-- Witness for C2 at rt = 60, failures at t = 0, queried at t = 0 and
t = 60. -/
theorem C2_circuit_breaker_witness :
    (((0 : ℚ) - 0 < 60) ∧ ((60 : ℚ) ≤ 60 - 0))
    ∧ (((((CircuitBreaker.init "api" 3 60).record_failure 0).record_failure 0).state
        = .CLOSED)
    ∧ (((((CircuitBreaker.init "api" 3 60).record_failure 0).record_failure 0).record_failure 0).state
        = .OPEN)
    ∧ ((((((CircuitBreaker.init "api" 3 60).record_failure 0).record_failure 0).record_failure 0).can_execute 0).1
        = false)
    ∧ ((((((CircuitBreaker.init "api" 3 60).record_failure 0).record_failure 0).record_failure 0).can_execute 60).1
        = true)
    ∧ ((((((CircuitBreaker.init "api" 3 60).record_failure 0).record_failure 0).record_failure 0).can_execute 60).2.state
        = .HALF_OPEN)
    ∧ (((((((CircuitBreaker.init "api" 3 60).record_failure 0).record_failure 0).record_failure 0).can_execute 60).2.record_success).state
        = .CLOSED)
    ∧ (((((((CircuitBreaker.init "api" 3 60).record_failure 0).record_failure 0).record_failure 0).can_execute 60).2.record_success).failure_count
        = 0)) :=
  ⟨⟨by norm_num, by norm_num⟩,
   C2_circuit_breaker 60 0 0 0 0 60 (by norm_num) (by norm_num)⟩

/-- Claim C3: with no forced category, a first attempt failing with a
non-Transient error makes the wrapper raise that very error after
exactly one invocation and no backoff sleep. -/
theorem C3_non_transient_raises_immediately {α : Type} (max_retries : Nat)
    (backoff_base backoff_max jitter : ℚ) (jitF : Nat → ℚ)
    (func : Nat → Except PyError α) (e : PyError)
    (hmr : 1 ≤ max_retries) (hf : func 1 = .error e)
    (hcat : classify_error e ≠ ErrorCategory.TRANSIENT) :
    retry max_retries backoff_base backoff_max jitter jitF none
        (fun _ => true) func = ⟨.raised e, 1, []⟩ := by
  obtain ⟨r, rfl⟩ : ∃ r, max_retries = r + 1 :=
    ⟨max_retries - 1, (Nat.succ_pred_eq_of_pos hmr).symm⟩
  have hb : (classify_error e != ErrorCategory.TRANSIENT) = true :=
    bne_iff_ne.mpr hcat
  simp [retry, retryGo, hf, hb]

/-- Witness for C3: a ValueError (Logic category) raised on the first
attempt of a wrapper with max_retries = 3. -/
theorem C3_non_transient_raises_immediately_witness :
    (1 ≤ 3
    ∧ (fun _ => (.error ⟨.ValueError, "Invalid invoice amount"⟩ :
          Except PyError String)) 1 = .error ⟨.ValueError, "Invalid invoice amount"⟩
    ∧ classify_error ⟨.ValueError, "Invalid invoice amount"⟩ ≠ ErrorCategory.TRANSIENT)
    ∧ retry 3 1 30 (1/2) (fun _ => 0) none (fun _ => true)
        (fun _ => (.error ⟨.ValueError, "Invalid invoice amount"⟩ :
          Except PyError String))
      = ⟨.raised ⟨.ValueError, "Invalid invoice amount"⟩, 1, []⟩ :=
  ⟨⟨by decide, rfl, by decide⟩,
   C3_non_transient_raises_immediately 3 1 30 (1/2) (fun _ => 0) _ _
     (by decide) rfl (by decide)⟩

/-- Claim C9: update_status followed by add_execution_log rewrites only
the status, executed_at and execution_result header fields; every
other header field and the body (and file stem) are unchanged. -/
theorem C9_header_rewrite_frame (a : HITLAction) (s result : String) (now : ℚ)
    (k : String) (h1 : k ≠ "status") (h2 : k ≠ "executed_at")
    (h3 : k ≠ "execution_result") :
    List.lookup k (((a.update_status s).add_execution_log now result).meta)
      = List.lookup k a.meta
    ∧ ((a.update_status s).add_execution_log now result).body = a.body
    ∧ ((a.update_status s).add_execution_log now result).stem = a.stem := by
  refine ⟨?_, rfl, rfl⟩
  simp [HITLAction.update_status, HITLAction.add_execution_log,
    lookup_setAssoc, h1, h2, h3]

/-- Witness for C9: a payment record's `amount` payload field survives
the executed-status rewrite. -/
theorem C9_header_rewrite_frame_witness :
    (("amount" ≠ "status" ∧ "amount" ≠ "executed_at"
      ∧ "amount" ≠ "execution_result"))
    ∧ (List.lookup "amount"
        (((samplePayment.update_status "executed").add_execution_log
          1700000000 "ok").meta)
        = List.lookup "amount" samplePayment.meta
    ∧ ((samplePayment.update_status "executed").add_execution_log
          1700000000 "ok").body = samplePayment.body
    ∧ ((samplePayment.update_status "executed").add_execution_log
          1700000000 "ok").stem = samplePayment.stem) :=
  ⟨⟨by decide, by decide, by decide⟩,
   C9_header_rewrite_frame samplePayment "executed" "ok" 1700000000 "amount"
     (by decide) (by decide) (by decide)⟩

/-- Writing under a key no current entry has appends a new record and
leaves every existing record unchanged. -/
theorem setAssoc_not_mem {β : Type} (m : List (String × β)) (k : String) (v : β)
    (h : ∀ p ∈ m, p.1 ≠ k) : setAssoc m k v = m ++ [(k, v)] := by
  induction m with
  | nil => rfl
  | cons p t ih =>
    have hp : p.1 ≠ k := h p (by simp)
    have ht : ∀ q ∈ t, q.1 ≠ k := fun q hq => h q (by simp [hq])
    obtain ⟨k0, v0⟩ := p
    simp [setAssoc, beq_eq_false_iff_ne.mpr hp, ih ht]

/-- Claim C7 (amended): enqueue never overwrites provided no existing
queue file carries the name `q_<id>_<int second>.json` of this call —
in particular whenever the integer enqueue timestamps differ.  The new
task is then appended as a distinct record and every existing record is
unchanged. -/
theorem C7_enqueue_fresh_appends (q : TaskQueue) (now : ℚ)
    (task_id task_type payload reason : String) (max_retries : Nat)
    (h : ∀ p ∈ q.queue, p.1 ≠ queueFileName task_id now) :
    (q.enqueue now task_id task_type payload reason max_retries).queue
      = q.queue ++ [(queueFileName task_id now,
          ⟨task_id, task_type, payload, reason, now, 0, max_retries,
           "queued", none, none⟩)]
    ∧ (q.enqueue now task_id task_type payload reason max_retries).dead_letter
      = q.dead_letter := by
  refine ⟨?_, rfl⟩
  simp [TaskQueue.enqueue, setAssoc_not_mem _ _ _ h]

/-- Witness for the amended C7: re-enqueueing the same task id one
second later appends a second record and keeps the first intact. -/
theorem C7_enqueue_fresh_appends_witness :
    (∀ p ∈ ((⟨[], []⟩ : TaskQueue).enqueue 5 "t1" "email_send" "payload A"
        "api_down" 3).queue, p.1 ≠ queueFileName "t1" 6)
    ∧ ((((⟨[], []⟩ : TaskQueue).enqueue 5 "t1" "email_send" "payload A"
          "api_down" 3).enqueue 6 "t1" "email_send" "payload B"
          "api_down" 3).queue
        = ((⟨[], []⟩ : TaskQueue).enqueue 5 "t1" "email_send" "payload A"
            "api_down" 3).queue
          ++ [(queueFileName "t1" 6,
               ⟨"t1", "email_send", "payload B", "api_down", 6, 0, 3,
                "queued", none, none⟩)]
    ∧ ((((⟨[], []⟩ : TaskQueue).enqueue 5 "t1" "email_send" "payload A"
          "api_down" 3).enqueue 6 "t1" "email_send" "payload B"
          "api_down" 3).dead_letter
        = ((⟨[], []⟩ : TaskQueue).enqueue 5 "t1" "email_send" "payload A"
            "api_down" 3).dead_letter)) :=
  ⟨by decide,
   C7_enqueue_fresh_appends _ 6 "t1" "email_send" "payload B" "api_down" 3
     (by decide)⟩

/-- Claim C7 counterexample: the claim as stated — enqueueing an id the
queue already holds always preserves the existing record and adds a
distinct one — fails when the two enqueues fall in the same integer
second: the file name collides and `write_text` overwrites. -/
theorem C7_counterexample_same_second :
    ¬ (∀ (q : TaskQueue) (now : ℚ)
        (task_id task_type payload reason : String) (max_retries : Nat),
        (∃ p ∈ q.queue, p.2.id = task_id) →
        ((∀ p ∈ q.queue,
            p ∈ (q.enqueue now task_id task_type payload reason max_retries).queue)
         ∧ ((q.enqueue now task_id task_type payload reason max_retries).queue).length
            = q.queue.length + 1)) := by
  intro h
  have hc := h ((⟨[], []⟩ : TaskQueue).enqueue 5 "t1" "email_send" "payload A"
      "api_down" 3) 5 "t1" "email_send" "payload B" "api_down" 3 (by decide)
  exact absurd hc.2 (by decide)

/-- Claim C4: a task enqueued with max_retries = 3 whose processor
fails on every run is dead-lettered on the 3rd failed attempt: the
dead-letter record carries status "dead_letter" and the failure reason,
the task is deleted from the active queue, and no subsequent
process_queue call passes it to a processor. -/
theorem C4_dead_letter_after_third_failure
    (task_id task_type payload reason : String) (n0 n1 n2 n3 n4 : ℚ)
    (proc : QueuedTask → Except String Unit) (m : QueuedTask → String)
    (hproc : ∀ u, proc u = .error (m u)) :
    (((((TaskQueue.enqueue ⟨[], []⟩ n0 task_id task_type payload reason
          3).process_queue n1 proc).1.process_queue n2 proc).1.process_queue
          n3 proc).1.queue = [])
    ∧ (((((TaskQueue.enqueue ⟨[], []⟩ n0 task_id task_type payload reason
          3).process_queue n1 proc).1.process_queue n2 proc).1.process_queue
          n3 proc).1.dead_letter
        = [(queueFileName task_id n0,
            ⟨task_id, task_type, payload, reason, n0, 2, 3, "dead_letter",
             some (m ⟨task_id, task_type, payload, reason, n0, 3, 3,
               "queued", none, none⟩),
             some n3⟩)])
    ∧ (((((TaskQueue.enqueue ⟨[], []⟩ n0 task_id task_type payload reason
          3).process_queue n1 proc).1.process_queue n2 proc).1.process_queue
          n3 proc).2.1.dead_letter = 1)
    ∧ (∀ proc2 : QueuedTask → Except String Unit,
        ((((((TaskQueue.enqueue ⟨[], []⟩ n0 task_id task_type payload reason
          3).process_queue n1 proc).1.process_queue n2 proc).1.process_queue
          n3 proc).1.process_queue n4 proc2).2.2 = [])) := by
  simp [TaskQueue.enqueue, TaskQueue.process_queue, TaskQueue.dequeue_all,
    insertByName, pqStep, TaskQueue.mark_completed, TaskQueue.send_to_dead_letter,
    setAssoc, delAssoc, hproc, List.lookup]

/-- Witness for C4: a concrete always-failing processor dead-letters
the task on the third run. -/
theorem C4_dead_letter_after_third_failure_witness :
    (∀ u : QueuedTask,
      (fun _ : QueuedTask => (Except.error "boom" : Except String Unit)) u
        = .error ((fun _ : QueuedTask => "boom") u))
    ∧ ((((((TaskQueue.enqueue ⟨[], []⟩ 100 "t1" "email_send" "p" "api_down"
          3).process_queue 200
            (fun _ : QueuedTask => (Except.error "boom" : Except String Unit))).1.process_queue
            300 (fun _ : QueuedTask => (Except.error "boom" : Except String Unit))).1.process_queue
            400 (fun _ : QueuedTask => (Except.error "boom" : Except String Unit))).1.queue = [])
    ∧ (((((TaskQueue.enqueue ⟨[], []⟩ 100 "t1" "email_send" "p" "api_down"
          3).process_queue 200
            (fun _ : QueuedTask => (Except.error "boom" : Except String Unit))).1.process_queue
            300 (fun _ : QueuedTask => (Except.error "boom" : Except String Unit))).1.process_queue
            400 (fun _ : QueuedTask => (Except.error "boom" : Except String Unit))).1.dead_letter
        = [(queueFileName "t1" 100,
            ⟨"t1", "email_send", "p", "api_down", 100, 2, 3, "dead_letter",
             some ((fun _ : QueuedTask => "boom")
               (⟨"t1", "email_send", "p", "api_down", 100, 3, 3,
                 "queued", none, none⟩ : QueuedTask)),
             some 400⟩)])
    ∧ (((((TaskQueue.enqueue ⟨[], []⟩ 100 "t1" "email_send" "p" "api_down"
          3).process_queue 200
            (fun _ : QueuedTask => (Except.error "boom" : Except String Unit))).1.process_queue
            300 (fun _ : QueuedTask => (Except.error "boom" : Except String Unit))).1.process_queue
            400 (fun _ : QueuedTask => (Except.error "boom" : Except String Unit))).2.1.dead_letter = 1)
    ∧ (∀ proc2 : QueuedTask → Except String Unit,
        ((((((TaskQueue.enqueue ⟨[], []⟩ 100 "t1" "email_send" "p" "api_down"
          3).process_queue 200
            (fun _ : QueuedTask => (Except.error "boom" : Except String Unit))).1.process_queue
            300 (fun _ : QueuedTask => (Except.error "boom" : Except String Unit))).1.process_queue
            400 (fun _ : QueuedTask => (Except.error "boom" : Except String Unit))).1.process_queue
            500 proc2).2.2 = []))) :=
  ⟨fun _ => rfl,
   C4_dead_letter_after_third_failure "t1" "email_send" "p" "api_down"
     100 200 300 400 500
     (fun _ : QueuedTask => (Except.error "boom" : Except String Unit))
     (fun _ : QueuedTask => "boom") (fun _ => rfl)⟩

/-- Claim C5 (amended): when the named circuit refuses the call and a
fallback is supplied, the wrapped fn is never invoked, the fallback
runs exactly once with the synthetic circuit-open error, and the
returned tri-state is `(false, fallback result, none)` — the error slot
of the fallback branch is none, not the synthetic error. -/
theorem C5_circuit_open_fallback {α : Type} (now : ℚ)
    (cs : List (String × CircuitBreaker)) (name : String) (cb : CircuitBreaker)
    (fn : Nat → Except PyError α) (fb : PyError → α) (max_retries : Nat)
    (jitF : Nat → ℚ)
    (hcb : List.lookup name cs = some cb)
    (hopen : (cb.can_execute now).1 = false) :
    (ErrorHandler.safe_execute now cs fn (some fb) max_retries (some name)
        jitF).fnCalls = 0
    ∧ (ErrorHandler.safe_execute now cs fn (some fb) max_retries (some name)
        jitF).succeeded = false
    ∧ (ErrorHandler.safe_execute now cs fn (some fb) max_retries (some name)
        jitF).result = some (fb (circuitOpenError name))
    ∧ (ErrorHandler.safe_execute now cs fn (some fb) max_retries (some name)
        jitF).error = none
    ∧ (ErrorHandler.safe_execute now cs fn (some fb) max_retries (some name)
        jitF).fallbackCalls = [circuitOpenError name]
    ∧ (ErrorHandler.safe_execute now cs fn (some fb) max_retries (some name)
        jitF).sleeps = [] := by
  simp [ErrorHandler.safe_execute, ErrorHandler.get_circuit, hcb, hopen]

/-- Witness for the amended C5: an Open breaker queried 10 s after its
last failure with a 60 s recovery timeout. -/
theorem C5_circuit_open_fallback_witness :
    (List.lookup "api"
        [("api", (⟨"api", 5, 60, .OPEN, 5, 100, 0⟩ : CircuitBreaker))]
      = some (⟨"api", 5, 60, .OPEN, 5, 100, 0⟩ : CircuitBreaker)
    ∧ ((⟨"api", 5, 60, .OPEN, 5, 100, 0⟩ : CircuitBreaker).can_execute 110).1
      = false)
    ∧ ((ErrorHandler.safe_execute 110
        [("api", (⟨"api", 5, 60, .OPEN, 5, 100, 0⟩ : CircuitBreaker))]
        (fun _ => (.ok "unused" : Except PyError String))
        (some (fun _ => "queued")) 3 (some "api") (fun _ => 0)).fnCalls = 0
    ∧ (ErrorHandler.safe_execute 110
        [("api", (⟨"api", 5, 60, .OPEN, 5, 100, 0⟩ : CircuitBreaker))]
        (fun _ => (.ok "unused" : Except PyError String))
        (some (fun _ => "queued")) 3 (some "api") (fun _ => 0)).succeeded = false
    ∧ (ErrorHandler.safe_execute 110
        [("api", (⟨"api", 5, 60, .OPEN, 5, 100, 0⟩ : CircuitBreaker))]
        (fun _ => (.ok "unused" : Except PyError String))
        (some (fun _ => "queued")) 3 (some "api") (fun _ => 0)).result
        = some ((fun _ => "queued") (circuitOpenError "api"))
    ∧ (ErrorHandler.safe_execute 110
        [("api", (⟨"api", 5, 60, .OPEN, 5, 100, 0⟩ : CircuitBreaker))]
        (fun _ => (.ok "unused" : Except PyError String))
        (some (fun _ => "queued")) 3 (some "api") (fun _ => 0)).error = none
    ∧ (ErrorHandler.safe_execute 110
        [("api", (⟨"api", 5, 60, .OPEN, 5, 100, 0⟩ : CircuitBreaker))]
        (fun _ => (.ok "unused" : Except PyError String))
        (some (fun _ => "queued")) 3 (some "api") (fun _ => 0)).fallbackCalls
        = [circuitOpenError "api"]
    ∧ (ErrorHandler.safe_execute 110
        [("api", (⟨"api", 5, 60, .OPEN, 5, 100, 0⟩ : CircuitBreaker))]
        (fun _ => (.ok "unused" : Except PyError String))
        (some (fun _ => "queued")) 3 (some "api") (fun _ => 0)).sleeps = []) :=
  ⟨⟨rfl, by norm_num [CircuitBreaker.can_execute]⟩,
   C5_circuit_open_fallback 110 _ "api" _
     (fun _ => (.ok "unused" : Except PyError String)) (fun _ => "queued") 3
     (fun _ => 0) rfl (by norm_num [CircuitBreaker.can_execute])⟩

/-- Claim C5 counterexample: at the same concrete circuit-open input
the tri-state's error slot is none, so the claim's requirement that the
synthetic circuit-open error occupy the error slot is false. -/
theorem C5_counterexample_error_slot_none :
    ¬ ((ErrorHandler.safe_execute 110
        [("api", (⟨"api", 5, 60, .OPEN, 5, 100, 0⟩ : CircuitBreaker))]
        (fun _ => (.ok "unused" : Except PyError String))
        (some (fun _ => "queued")) 3 (some "api") (fun _ => 0)).fnCalls = 0
    ∧ (ErrorHandler.safe_execute 110
        [("api", (⟨"api", 5, 60, .OPEN, 5, 100, 0⟩ : CircuitBreaker))]
        (fun _ => (.ok "unused" : Except PyError String))
        (some (fun _ => "queued")) 3 (some "api") (fun _ => 0)).succeeded = false
    ∧ (ErrorHandler.safe_execute 110
        [("api", (⟨"api", 5, 60, .OPEN, 5, 100, 0⟩ : CircuitBreaker))]
        (fun _ => (.ok "unused" : Except PyError String))
        (some (fun _ => "queued")) 3 (some "api") (fun _ => 0)).result
        = some "queued"
    ∧ (ErrorHandler.safe_execute 110
        [("api", (⟨"api", 5, 60, .OPEN, 5, 100, 0⟩ : CircuitBreaker))]
        (fun _ => (.ok "unused" : Except PyError String))
        (some (fun _ => "queued")) 3 (some "api") (fun _ => 0)).error
        = some (circuitOpenError "api")) := by
  intro h
  have he := h.2.2.2
  have : (ErrorHandler.safe_execute 110
      [("api", (⟨"api", 5, 60, .OPEN, 5, 100, 0⟩ : CircuitBreaker))]
      (fun _ => (.ok "unused" : Except PyError String))
      (some (fun _ => "queued")) 3 (some "api") (fun _ => 0)).error = none := by
    norm_num [ErrorHandler.safe_execute, ErrorHandler.get_circuit,
      List.lookup, CircuitBreaker.can_execute]
  rw [this] at he
  exact Option.noConfusion he

/-- One approved-scan step never removes an executed id. -/
theorem paStep_exec_mono (now : ℚ) (acc : PARes) (f : String × HITLAction)
    (v : YVal) (hv : v ∈ acc.exec_ids) : v ∈ (paStep now acc f).exec_ids := by
  unfold paStep
  split
  · exact hv
  · split
    · exact hv
    · split
      · exact hv
      · exact List.mem_append_left _ hv

/-- One approved-scan step dispatches only the id of the file it reads. -/
theorem paStep_dispatched_sub (now : ℚ) (acc : PARes) (f : String × HITLAction)
    (v : YVal) (h : v ∈ (paStep now acc f).dispatched) :
    v ∈ acc.dispatched ∨ v = f.2.id := by
  unfold paStep at h
  split at h
  · exact Or.inl h
  · split at h
    · exact Or.inl h
    · split at h
      · rcases List.mem_append.mp h with h1 | h1
        · exact Or.inl h1
        · exact Or.inr (List.mem_singleton.mp h1)
      · rcases List.mem_append.mp h with h1 | h1
        · exact Or.inl h1
        · exact Or.inr (List.mem_singleton.mp h1)

/-- A file whose id is already executed leaves the dispatched list
unchanged (it is skipped before the executor runs). -/
theorem paStep_dispatched_of_exec (now : ℚ) (acc : PARes)
    (f : String × HITLAction) (hex : f.2.id ∈ acc.exec_ids) :
    (paStep now acc f).dispatched = acc.dispatched := by
  unfold paStep
  by_cases hmd : (!(isMd f.1)) = true
  · rw [if_pos hmd]
  · rw [if_neg hmd, if_pos hex]

/-- One approved-scan step never dispatches an id that is already in
the executed-ids list. -/
theorem paStep_dispatched_guard (now : ℚ) (acc : PARes) (f : String × HITLAction)
    (v : YVal) (hv : v ∈ acc.exec_ids) (hd : v ∉ acc.dispatched) :
    v ∉ (paStep now acc f).dispatched := by
  intro hmem
  rcases paStep_dispatched_sub now acc f v hmem with h1 | h1
  · exact hd h1
  · subst h1
    rw [paStep_dispatched_of_exec now acc f hv] at hmem
    exact hd hmem

/-- One approved-scan step keeps every record it had kept. -/
theorem paStep_keep_mono (now : ℚ) (acc : PARes) (f : String × HITLAction)
    (x : String × HITLAction) (h : x ∈ acc.keep) : x ∈ (paStep now acc f).keep := by
  unfold paStep
  split
  · exact List.mem_append_left _ h
  · split
    · exact List.mem_append_left _ h
    · split
      · exact List.mem_append_left _ h
      · exact h

/-- Records kept in Approved by one step come from the accumulator or
are the step's own file. -/
theorem paStep_keep_sub (now : ℚ) (acc : PARes) (f : String × HITLAction)
    (x : String × HITLAction) (h : x ∈ (paStep now acc f).keep) :
    x ∈ acc.keep ∨ x = f := by
  unfold paStep at h
  split at h
  · rcases List.mem_append.mp h with h1 | h1
    · exact Or.inl h1
    · exact Or.inr (List.mem_singleton.mp h1)
  · split at h
    · rcases List.mem_append.mp h with h1 | h1
      · exact Or.inl h1
      · exact Or.inr (List.mem_singleton.mp h1)
    · split at h
      · rcases List.mem_append.mp h with h1 | h1
        · exact Or.inl h1
        · exact Or.inr (List.mem_singleton.mp h1)
      · exact Or.inl h

/-- Executed ids survive the whole approved scan. -/
theorem foldl_pa_exec_mono (now : ℚ) (l : List (String × HITLAction)) :
    ∀ (acc : PARes) (v : YVal), v ∈ acc.exec_ids →
      v ∈ (l.foldl (paStep now) acc).exec_ids := by
  induction l with
  | nil => intro acc v hv; exact hv
  | cons f t ih =>
    intro acc v hv
    exact ih _ v (paStep_exec_mono now acc f v hv)

/-- An id in the executed-ids list is never dispatched by the scan. -/
theorem foldl_pa_dispatched_guard (now : ℚ) (l : List (String × HITLAction)) :
    ∀ (acc : PARes) (v : YVal), v ∈ acc.exec_ids → v ∉ acc.dispatched →
      v ∉ (l.foldl (paStep now) acc).dispatched := by
  induction l with
  | nil => intro acc v _ hd; exact hd
  | cons f t ih =>
    intro acc v hv hd
    exact ih _ v (paStep_exec_mono now acc f v hv)
      (paStep_dispatched_guard now acc f v hv hd)

/-- Every id the scan dispatches belongs to some scanned file. -/
theorem foldl_pa_dispatched_sub (now : ℚ) (l : List (String × HITLAction)) :
    ∀ (acc : PARes) (v : YVal), v ∈ (l.foldl (paStep now) acc).dispatched →
      v ∈ acc.dispatched ∨ ∃ f ∈ l, f.2.id = v := by
  induction l with
  | nil => intro acc v h; exact Or.inl h
  | cons f t ih =>
    intro acc v h
    rcases ih _ v h with h1 | ⟨g, hg, hid⟩
    · rcases paStep_dispatched_sub now acc f v h1 with h2 | h2
      · exact Or.inl h2
      · exact Or.inr ⟨f, List.mem_cons_self f t, h2.symm⟩
    · exact Or.inr ⟨g, List.mem_cons_of_mem f hg, hid⟩

/-- Records kept in Approved survive the rest of the scan. -/
theorem foldl_pa_keep_mono (now : ℚ) (l : List (String × HITLAction)) :
    ∀ (acc : PARes) (x : String × HITLAction), x ∈ acc.keep →
      x ∈ (l.foldl (paStep now) acc).keep := by
  induction l with
  | nil => intro acc x h; exact h
  | cons f t ih =>
    intro acc x h
    exact ih _ x (paStep_keep_mono now acc f x h)

/-- Every record the scan keeps in Approved was kept before or is one
of the scanned files. -/
theorem foldl_pa_keep_sub (now : ℚ) (l : List (String × HITLAction)) :
    ∀ (acc : PARes) (x : String × HITLAction),
      x ∈ (l.foldl (paStep now) acc).keep → x ∈ acc.keep ∨ x ∈ l := by
  induction l with
  | nil => intro acc x h; exact Or.inl h
  | cons f t ih =>
    intro acc x h
    rcases ih _ x h with h1 | h1
    · rcases paStep_keep_sub now acc f x h1 with h2 | h2
      · exact Or.inl h2
      · exact Or.inr (h2 ▸ List.mem_cons_self f t)
    · exact Or.inr (List.mem_cons_of_mem f h1)

/-- A scanned .md file whose id is already executed is left in
Approved. -/
theorem foldl_pa_keep_of_executed (now : ℚ) (l : List (String × HITLAction)) :
    ∀ (acc : PARes) (f : String × HITLAction), f ∈ l → isMd f.1 = true →
      f.2.id ∈ acc.exec_ids → f ∈ (l.foldl (paStep now) acc).keep := by
  induction l with
  | nil => intro _ _ h; cases h
  | cons g t ih =>
    intro acc f hf hmd hex
    rcases List.mem_cons.mp hf with rfl | hf'
    · rw [List.foldl_cons]
      apply foldl_pa_keep_mono
      simp [paStep, hmd, hex]
    · exact ih _ f hf' hmd (paStep_exec_mono now acc g _ hex)

/-- One expiry step keeps everything already moved to Expired. -/
theorem esStep_moved_mono (now : ℚ) (acc : ESRes) (f : String × HITLAction)
    (x : String × HITLAction) (h : x ∈ acc.movedExp) :
    x ∈ (esStep now acc f).movedExp := by
  unfold esStep
  split
  · exact h
  · split
    · exact List.mem_append_left _ h
    · exact h

/-- Everything moved to Expired survives the rest of the expiry scan. -/
theorem foldl_es_moved_mono (now : ℚ) (l : List (String × HITLAction)) :
    ∀ (acc : ESRes) (x : String × HITLAction), x ∈ acc.movedExp →
      x ∈ (l.foldl (esStep now) acc).movedExp := by
  induction l with
  | nil => intro acc x h; exact h
  | cons f t ih =>
    intro acc x h
    exact ih _ x (esStep_moved_mono now acc f x h)

/-- Every scanned .md Pending file whose expiry has passed — whatever
its status — is rewritten to status expired and moved to Expired. -/
theorem foldl_es_moved_of_expired (now : ℚ) (l : List (String × HITLAction)) :
    ∀ (acc : ESRes) (f : String × HITLAction), f ∈ l → isMd f.1 = true →
      f.2.is_expired now = true →
      (f.1, f.2.update_status "expired") ∈ (l.foldl (esStep now) acc).movedExp := by
  induction l with
  | nil => intro _ _ h; cases h
  | cons g t ih =>
    intro acc f hf hmd hexp
    rcases List.mem_cons.mp hf with rfl | hf'
    · rw [List.foldl_cons]
      apply foldl_es_moved_mono
      simp [esStep, hmd, hexp]
    · exact ih _ f hf' hmd hexp

/-- Claim C1: a record id already executed once — in the persisted
executed-ids set, or borne by no record still in Approved — is never
dispatched to ActionExecutor.execute by a further scan cycle, and the
same precondition still holds after the cycle, so the id is dispatched
at most once across all repeated cycles. -/
theorem C1_executed_at_most_once (now : ℚ) (st : WatcherState) (sto : Storage)
    (v : YVal)
    (h : v ∈ st.executed_ids ∨ ∀ f ∈ sto.approved, f.2.id ≠ v) :
    v ∉ (scanAndProcess now st sto).dispatched
    ∧ (v ∈ (scanAndProcess now st sto).st.executed_ids
       ∨ ∀ f ∈ (scanAndProcess now st sto).sto.approved, f.2.id ≠ v) := by
  have hdisp : (scanAndProcess now st sto).dispatched
      = (sto.approved.foldl (paStep now)
          ⟨st.executed_ids, [], [], 0, 0, []⟩).dispatched := rfl
  have hexec : (scanAndProcess now st sto).st.executed_ids
      = (sto.approved.foldl (paStep now)
          ⟨st.executed_ids, [], [], 0, 0, []⟩).exec_ids := rfl
  have happ : (scanAndProcess now st sto).sto.approved
      = (sto.approved.foldl (paStep now)
          ⟨st.executed_ids, [], [], 0, 0, []⟩).keep := rfl
  rcases h with hv | hall
  · constructor
    · rw [hdisp]
      exact foldl_pa_dispatched_guard now sto.approved _ v hv
        (List.not_mem_nil v)
    · left
      rw [hexec]
      exact foldl_pa_exec_mono now sto.approved _ v hv
  · constructor
    · rw [hdisp]
      intro hmem
      rcases foldl_pa_dispatched_sub now sto.approved _ v hmem with h1 | ⟨f, hf, hid⟩
      · exact List.not_mem_nil v h1
      · exact hall f hf hid
    · right
      rw [happ]
      intro f hf
      rcases foldl_pa_keep_sub now sto.approved _ f hf with h1 | h1
      · cases List.not_mem_nil f h1
      · exact hall f h1

/-- Witness for C1: an approved record whose id is already in the
persisted executed-ids set is not dispatched again, and the
precondition survives the cycle. -/
theorem C1_executed_at_most_once_witness :
    ((.str "a1" : YVal) ∈ [(.str "a1" : YVal)]
      ∨ ∀ f ∈ storageApproved.approved, f.2.id ≠ (.str "a1" : YVal))
    ∧ ((.str "a1" : YVal)
        ∉ (scanAndProcess 100 ⟨[(.str "a1" : YVal)]⟩ storageApproved).dispatched
    ∧ ((.str "a1" : YVal)
        ∈ (scanAndProcess 100 ⟨[(.str "a1" : YVal)]⟩ storageApproved).st.executed_ids
      ∨ ∀ f ∈ (scanAndProcess 100 ⟨[(.str "a1" : YVal)]⟩ storageApproved).sto.approved,
          f.2.id ≠ (.str "a1" : YVal))) :=
  ⟨Or.inl (by decide),
   C1_executed_at_most_once 100 ⟨[(.str "a1" : YVal)]⟩ storageApproved
     (.str "a1") (Or.inl (by decide))⟩

/-- Claim C8 (amended): the approved-scan skips (and leaves in place)
any .md record whose id is in the persisted executed-ids set, whatever
its status; but terminal statuses enjoy no other protection — the
expiry scan checks only expiry, so any .md record relocated into
Pending whose expiry has passed, even one already marked executed, is
rewritten to status expired and moved to Expired storage. -/
theorem C8_executed_guard_but_expiry_ignores_status (now : ℚ)
    (st : WatcherState) (sto : Storage) :
    (∀ f ∈ sto.approved, isMd f.1 = true → f.2.id ∈ st.executed_ids →
        f ∈ (scanAndProcess now st sto).sto.approved
        ∧ f.2.id ∉ (scanAndProcess now st sto).dispatched)
    ∧ (∀ f ∈ sto.pending, isMd f.1 = true → f.2.is_expired now = true →
        (f.1, f.2.update_status "expired")
          ∈ (scanAndProcess now st sto).sto.expired) := by
  constructor
  · intro f hf hmd hex
    have happ : (scanAndProcess now st sto).sto.approved
        = (sto.approved.foldl (paStep now)
            ⟨st.executed_ids, [], [], 0, 0, []⟩).keep := rfl
    have hdisp : (scanAndProcess now st sto).dispatched
        = (sto.approved.foldl (paStep now)
            ⟨st.executed_ids, [], [], 0, 0, []⟩).dispatched := rfl
    constructor
    · rw [happ]
      exact foldl_pa_keep_of_executed now sto.approved _ f hf hmd hex
    · rw [hdisp]
      exact foldl_pa_dispatched_guard now sto.approved _ f.2.id hex
        (List.not_mem_nil _)
  · intro f hf hmd hexp
    have hexpd : (scanAndProcess now st sto).sto.expired
        = sto.expired ++ (sto.pending.foldl (esStep now) ⟨[], [], 0⟩).movedExp := rfl
    rw [hexpd]
    exact List.mem_append_right _
      (foldl_es_moved_of_expired now sto.pending _ f hf hmd hexp)

/-- Witness for the amended C8: in a storage holding one executed
record relocated into Pending (expiry passed) and one approved record
with an already-executed id, the cycle skips the approved record and
expires the relocated executed record. -/
theorem C8_executed_guard_but_expiry_ignores_status_witness :
    ((("a1.md", approvedEmail) ∈ storageRelocated.approved
      ∧ isMd "a1.md" = true
      ∧ approvedEmail.id ∈ [(.str "a1" : YVal)])
    ∧ (("x1.md", executedStale) ∈ storageRelocated.pending
      ∧ isMd "x1.md" = true
      ∧ executedStale.is_expired 10 = true))
    ∧ ((("a1.md", approvedEmail)
        ∈ (scanAndProcess 10 ⟨[(.str "a1" : YVal)]⟩ storageRelocated).sto.approved
      ∧ approvedEmail.id
        ∉ (scanAndProcess 10 ⟨[(.str "a1" : YVal)]⟩ storageRelocated).dispatched)
    ∧ ("x1.md", executedStale.update_status "expired")
        ∈ (scanAndProcess 10 ⟨[(.str "a1" : YVal)]⟩ storageRelocated).sto.expired) :=
  ⟨⟨⟨by decide, by decide, by decide⟩, ⟨by decide, by decide, by decide⟩⟩,
   ⟨(C8_executed_guard_but_expiry_ignores_status 10 ⟨[(.str "a1" : YVal)]⟩
        storageRelocated).1 ("a1.md", approvedEmail)
        (by decide) (by decide) (by decide),
    (C8_executed_guard_but_expiry_ignores_status 10 ⟨[(.str "a1" : YVal)]⟩
        storageRelocated).2 ("x1.md", executedStale)
        (by decide) (by decide) (by decide)⟩⟩

/-- Claim C8 counterexample: the claim as stated — once a record's
status is executed, expired or rejected no lifecycle scan transitions
it further — is false: an executed record relocated into Pending with
its expiry passed is transitioned to status expired by the scan. -/
theorem C8_counterexample_executed_transitions_to_expired :
    ¬ (∀ (now : ℚ) (st : WatcherState) (sto : Storage),
        ∀ f ∈ allRecords sto, isTerminalStatus f.2.status = true →
        ∀ g ∈ allRecords (scanAndProcess now st sto).sto,
          g.1 = f.1 → g.2.status = f.2.status) := by
  intro h
  have hx := h 10 ⟨[(.str "a1" : YVal)]⟩ storageRelocated
    ("x1.md", executedStale) (by decide) (by decide)
    ("x1.md", executedStale.update_status "expired") (by decide) rfl
  exact absurd hx (by decide)

/-- Claim C10 (amended): parsing never raises; a file without a
frontmatter opener, or with an unclosed one, parses to empty metadata
with the whole text as body; with malformed YAML between two delimiters
the metadata is empty but the body is the stripped text after the
second delimiter, not the whole text; with empty metadata the accessors
return the defaults (id = stem, action general, status pending,
priority normal); and is_expired is false whenever created and expires
are both missing or unparseable. -/
theorem C10_parse_defaults :
    (∀ (yload : String → Option (List (String × YVal))) (stem raw : String),
        strStartsWith raw "---" = false →
        hitlParse yload stem raw = ⟨[], raw, stem⟩)
    ∧ (∀ (yload : String → Option (List (String × YVal))) (stem raw : String)
        (p0 p1 p2 : String),
        strStartsWith raw "---" = true → pySplit2 raw = [p0, p1, p2] →
        yload p1 = none →
        hitlParse yload stem raw = ⟨[], pyStrip p2, stem⟩)
    ∧ (∀ (yload : String → Option (List (String × YVal))) (stem raw : String),
        strStartsWith raw "---" = true →
        (∀ p0 p1 p2 : String, pySplit2 raw ≠ [p0, p1, p2]) →
        hitlParse yload stem raw = ⟨[], raw, stem⟩)
    ∧ (∀ a : HITLAction, a.meta = [] →
        a.id = .str a.stem ∧ a.action = .str "general"
        ∧ a.status = .str "pending" ∧ a.priority = .str "normal")
    ∧ (∀ (a : HITLAction) (now : ℚ), a.created = none → a.expires = none →
        a.is_expired now = false) := by
  refine ⟨?_, ?_, ?_, ?_, ?_⟩
  · intro yload stem raw h
    simp [hitlParse, h]
  · intro yload stem raw p0 p1 p2 h1 h2 h3
    simp [hitlParse, h1, h2, h3]
  · intro yload stem raw h1 h2
    rcases hsp : pySplit2 raw with _ | ⟨a, rest1⟩
    · simp [hitlParse, h1, hsp]
    rcases rest1 with _ | ⟨b, rest2⟩
    · simp [hitlParse, h1, hsp]
    rcases rest2 with _ | ⟨c, rest3⟩
    · simp [hitlParse, h1, hsp]
    rcases rest3 with _ | ⟨d, rest4⟩
    · exact absurd hsp (h2 a b c)
    · simp [hitlParse, h1, hsp]
  · intro a h
    refine ⟨?_, ?_, ?_, ?_⟩ <;>
      simp [HITLAction.id, HITLAction.action, HITLAction.status,
        HITLAction.priority, h, List.lookup]
  · intro a now h1 h2
    simp [HITLAction.is_expired, h1, h2]

/-- Witness for the amended C10: a plain note, a malformed frontmatter
file, an empty-metadata record, and unparseable date strings. -/
theorem C10_parse_defaults_witness :
    (strStartsWith "just a note" "---" = false
     ∧ pySplit2 "---BAD---Body" = ["", "BAD", "Body"]
     ∧ fromisoformat "not-a-date" = none)
    ∧ (hitlParse (fun _ => none) "f" "just a note" = ⟨[], "just a note", "f"⟩
    ∧ hitlParse (fun _ => none) "f" "---BAD---Body" = ⟨[], pyStrip "Body", "f"⟩
    ∧ ((⟨[], "txt", "note1"⟩ : HITLAction).id = .str "note1"
       ∧ (⟨[], "txt", "note1"⟩ : HITLAction).action = .str "general"
       ∧ (⟨[], "txt", "note1"⟩ : HITLAction).status = .str "pending"
       ∧ (⟨[], "txt", "note1"⟩ : HITLAction).priority = .str "normal")
    ∧ (⟨[("created", .str "not-a-date"), ("expires", .str "soon")],
        "b", "n"⟩ : HITLAction).is_expired 99 = false) :=
  ⟨⟨by decide, by decide, by decide⟩,
   ⟨C10_parse_defaults.1 (fun _ => none) "f" "just a note" (by decide),
    C10_parse_defaults.2.1 (fun _ => none) "f" "---BAD---Body" "" "BAD" "Body"
      (by decide) (by decide) rfl,
    C10_parse_defaults.2.2.2.1 ⟨[], "txt", "note1"⟩ rfl,
    C10_parse_defaults.2.2.2.2
      ⟨[("created", .str "not-a-date"), ("expires", .str "soon")], "b", "n"⟩
      99 (by decide) (by decide)⟩⟩

/-- Claim C10 counterexample: the claim as stated — absent or malformed
frontmatter yields empty metadata with the whole text as body — fails
for malformed YAML between two closing delimiters: the body is only the
stripped tail after the second delimiter. -/
theorem C10_counterexample_malformed_keeps_tail_only :
    ¬ (∀ (yload : String → Option (List (String × YVal))) (stem raw : String),
        (strStartsWith raw "---" = false
         ∨ ∃ p0 p1 p2 : String, pySplit2 raw = [p0, p1, p2] ∧ yload p1 = none) →
        (hitlParse yload stem raw).meta = []
        ∧ (hitlParse yload stem raw).body = raw) := by
  intro h
  have hc := h (fun _ => none) "f" "---BAD---Body text"
    (Or.inr ⟨"", "BAD", "Body text", by decide, rfl⟩)
  exact absurd hc.2 (by decide)
